import Mathlib

/-!
Shallow embedding of the horoscope scraping pipeline
(`src/scrapper.py`, `src/merge_files.py`).

The pipeline builds per-day/per-sign request URLs, fetches one HTML page
per request, extracts the horoscope text next to a `time.todays-horoscope`
marker element, collects the records of one year into a table, writes that
table as a CSV file, and finally concatenates the yearly CSV files.

External collaborators (the HTTP client `requests`, the HTML parser `bs4`,
and the tabular library `pandas`) are embedded as follows:
  * the network is an oracle `PageOracle` mapping a URL to either a
    `NetworkError` or a parsed document (`NodeList`);
  * a parsed HTML document is a tree of `Node`s (text nodes and elements
    with a tag, a class list, and children), which is exactly the interface
    the code uses of `bs4` (`find` by tag and class, `next_sibling`,
    string content);
  * `pd.date_range(a, b)` is the inclusive ascending enumeration of
    calendar dates from `a` to `b` (empty when `a > b`), embedded by
    `date_range` over Gregorian calendar dates;
  * `pd.DataFrame` is a `DataFrame` (column names plus rows of cells) and
    `DataFrame.to_csv(..., index=False)` writes the header line followed
    by one comma-separated line per row;
  * `pd.concat` of same-schema frames keeps the first frame's columns and
    concatenates the rows in order.
-/

deriving instance DecidableEq for Except

/-! ## Calendar dates (the dates enumerated by `pd.date_range`) -/

/-- A Gregorian calendar date, as enumerated by `pd.date_range`
(`src/scrapper.py:56`). -/
structure Date where
  year : Nat
  month : Nat
  day : Nat
deriving DecidableEq, Repr

/-- Gregorian leap-year rule. -/
def isLeapYear (y : Nat) : Bool :=
  (y % 4 == 0 && y % 100 != 0) || y % 400 == 0

/-- Number of days of month `m` in year `y` (Gregorian calendar). -/
def daysInMonth (y m : Nat) : Nat :=
  if m = 2 then (if isLeapYear y then 29 else 28)
  else if m = 4 ∨ m = 6 ∨ m = 9 ∨ m = 11 then 30
  else 31

/-- The day after `d` in the Gregorian calendar. -/
def Date.next (d : Date) : Date :=
  if d.day < daysInMonth d.year d.month then ⟨d.year, d.month, d.day + 1⟩
  else if d.month < 12 then ⟨d.year, d.month + 1, 1⟩
  else ⟨d.year + 1, 1, 1⟩

/-- Chronological comparison of dates (lexicographic on year, month, day). -/
def Date.le (a b : Date) : Bool :=
  decide (a.year < b.year) ||
    (decide (a.year = b.year) &&
      (decide (a.month < b.month) ||
        (decide (a.month = b.month) && decide (a.day ≤ b.day))))

/-- Fueled enumeration of the dates from `cur` to `stop` inclusive, in
ascending order; stops as soon as `cur` exceeds `stop`. -/
def date_range_aux : Nat → Date → Date → List Date
  | 0, _, _ => []
  | fuel + 1, cur, stop =>
    if Date.le cur stop then cur :: date_range_aux fuel (Date.next cur) stop else []

/-- The inclusive ascending daily enumeration `pd.date_range(s, e)`
(`src/scrapper.py:56`); empty when `s` is after `e`.  The fuel
`366 * (e.year + 1 - s.year) + 1` exceeds the number of days of any
range from `s` to `e`. -/
def date_range (s e : Date) : List Date :=
  date_range_aux (366 * (e.year + 1 - s.year) + 1) s e

/-! ## Date formatting -/

/-- Zero-padded two-digit decimal rendering, as used inside `str(date.date())`. -/
def pad2 (n : Nat) : String :=
  if n < 10 then "0" ++ toString n else toString n

/-- Zero-padded four-digit decimal rendering, as used inside `str(date.date())`. -/
def pad4 (n : Nat) : String :=
  if n < 10 then "000" ++ toString n
  else if n < 100 then "00" ++ toString n
  else if n < 1000 then "0" ++ toString n
  else toString n

/-- Python's `str(date.date())`: the ISO rendering `YYYY-MM-DD` of a date. -/
def date_iso (d : Date) : String :=
  pad4 d.year ++ "-" ++ pad2 d.month ++ "-" ++ pad2 d.day

/-- The helper `format_date` of `Requester.make_requests`
(`src/scrapper.py:52-53`): `str(date.date()).replace('-', '')`, i.e. the
ISO rendering with its two hyphens removed — the 8-digit form `YYYYMMDD`. -/
def format_date (d : Date) : String :=
  pad4 d.year ++ pad2 d.month ++ pad2 d.day

/-! ## URL construction (`HoroscopePage.__init__`, `src/scrapper.py:7-8`) -/

/-- The URL built by `HoroscopePage.__init__`
(`src/scrapper.py:8`): the template
`http://www.beliefnet.com/inspiration/astrology/{}.aspx?d={}` with the
zodiac sign and the date substituted verbatim by `str.format`. -/
def HoroscopePage.url (zodiac_sign date : String) : String :=
  "http://www.beliefnet.com/inspiration/astrology/" ++ zodiac_sign ++ ".aspx?d=" ++ date

/-! ## Parsed HTML documents (the `bs4` tree as used by `get_horoscope`) -/

mutual
/-- One node of a parsed HTML document: either a text node
(a `bs4.NavigableString`) or an element with a tag name, the list of its
CSS classes, and its children (a `bs4.Tag`). -/
inductive Node where
  | text (s : String) : Node
  | elem (tag : String) (classes : List String) (children : NodeList) : Node
deriving Repr
/-- A sibling list of parsed HTML nodes; a whole document is the sibling
list of its top-level nodes. -/
inductive NodeList where
  | nil : NodeList
  | cons (head : Node) (tail : NodeList) : NodeList
deriving Repr
end

/-- The first node of a sibling list, if any. -/
def NodeList.headOpt : NodeList → Option Node
  | .nil => none
  | .cons n _ => some n

/-- Builds a sibling list from an ordinary Lean list of nodes. -/
def NodeList.ofList : List Node → NodeList
  | [] => .nil
  | n :: rest => .cons n (NodeList.ofList rest)

/-- Whether a document contains, anywhere in the tree, an element with tag
`time` carrying the class `todays-horoscope` — the marker element searched
by `soup.find('time', {'class': 'todays-horoscope'})`
(`src/scrapper.py:23`). -/
def containsMarker : NodeList → Bool
  | .nil => false
  | .cons (Node.text _) rest => containsMarker rest
  | .cons (Node.elem tag classes children) rest =>
    if tag = "time" ∧ "todays-horoscope" ∈ classes then true
    else containsMarker children || containsMarker rest

/-- The `bs4` search used by `get_horoscope` (`src/scrapper.py:23-24`):
finds the first element (in document pre-order) with tag `time` and class
`todays-horoscope` and reports its `next_sibling`.
Result: `none` when no such element exists; `some none` when the first
such element is the last node among its siblings (its `next_sibling` is
`None`); `some (some n)` when its next sibling is the node `n`. -/
def findNextSibling : NodeList → Option (Option Node)
  | .nil => none
  | .cons (Node.text _) rest => findNextSibling rest
  | .cons (Node.elem tag classes children) rest =>
    if tag = "time" ∧ "todays-horoscope" ∈ classes then some rest.headOpt
    else
      match findNextSibling children with
      | some r => some r
      | none => findNextSibling rest

/-- Python whitespace, as stripped by `str.strip()`. -/
def isPythonSpace (c : Char) : Bool :=
  c == ' ' || c == '\t' || c == '\n' || c == '\r' || c == '\x0b' || c == '\x0c'

/-- Python's `str.strip()` on a character list: drop leading and trailing
whitespace. -/
def pyStripList (l : List Char) : List Char :=
  ((l.dropWhile isPythonSpace).reverse.dropWhile isPythonSpace).reverse

/-- Python's `str.strip()`: the string with leading and trailing
whitespace removed (`src/scrapper.py:24`). -/
def pyStrip (s : String) : String :=
  String.mk (pyStripList s.data)

/-- The failure modes of the extraction step `get_horoscope`
(`src/scrapper.py:23-24`): in Python each of the three surfaces as an
uncaught `AttributeError` — the spec's `MarkupStructureError`. -/
inductive MarkupStructureError where
  /-- `soup.find(...)` returned `None`: no marker element in the page. -/
  | noMarkerElement : MarkupStructureError
  /-- The marker element is last among its siblings: `next_sibling` is `None`. -/
  | noNextSibling : MarkupStructureError
  /-- The node after the marker is an element, which has no `.strip()`. -/
  | nextSiblingNotText : MarkupStructureError
deriving DecidableEq, Repr

/-- The extraction step of `HoroscopePage.get_horoscope`
(`src/scrapper.py:22-26`) on an already-parsed page: locate the first
`time.todays-horoscope` element, take its `next_sibling`, and return its
stripped string content; fails when the marker is absent, when it has no
next sibling, or when the next sibling is not a text node. -/
def get_horoscope (doc : NodeList) : Except MarkupStructureError String :=
  match findNextSibling doc with
  | none => Except.error MarkupStructureError.noMarkerElement
  | some none => Except.error MarkupStructureError.noNextSibling
  | some (some (Node.text s)) => Except.ok (pyStrip s)
  | some (some (Node.elem _ _ _)) => Except.error MarkupStructureError.nextSiblingNotText

/-! ## The requester (`Requester`, `src/scrapper.py:28-65`) -/

/-- A failed HTTP fetch (`requests.get` raising), abstracted. -/
structure NetworkError where
  msg : String
deriving DecidableEq, Repr

/-- Any failure that aborts a scraping run: a fetch failure or an
extraction failure. -/
inductive ScrapeError where
  | network (e : NetworkError) : ScrapeError
  | markup (e : MarkupStructureError) : ScrapeError
deriving DecidableEq, Repr

/-- The network, abstracted: maps a URL to the parsed content of the page
at that URL, or to a fetch failure.  This stands for
`requests.get(url).text` followed by `bs4.BeautifulSoup(..., 'html.parser')`
(`src/scrapper.py:14-15` and `:22`). -/
def PageOracle := String → Except NetworkError NodeList

/-- One scraped record `(zodiac_sign, date.date(), horoscope)` as appended
by `Requester.make_requests` (`src/scrapper.py:63`). -/
abbrev HoroscopeRecord := String × Date × String

/-- The default zodiac-sign list substituted by `Requester.__init__`
(`src/scrapper.py:33-47`) when the `zodiac_signs` argument is `None` or
empty. -/
def zodiac_signs_default : List String :=
  ["aries", "taurus", "gemini", "cancer", "leo", "virgo",
   "libra", "scorpio", "sagittarius", "capricorn", "aquarius", "pisces"]

/-- The sign list stored by `Requester.__init__` (`src/scrapper.py:29-49`):
`none` models passing `None` (the default); a falsy (empty) list is
replaced by the default list, any other list is kept as given. -/
def requester_signs : Option (List String) → List String
  | none => zodiac_signs_default
  | some l => if l.isEmpty then zodiac_signs_default else l

/-- Inner loop of `Requester.make_requests` (`src/scrapper.py:57-64`): for
one date, iterate over the zodiac signs in list order; for each sign build
the URL, fetch the page, extract the horoscope, and append the record.
Returns the list of URLs requested (in request order) together with either
the records of this date or the first error, which aborts the whole run
(the Python exception propagates).  The `verbose` printing and the
`time.sleep(delay)` pause have no observable effect on the data and are
not modelled. -/
def reqSign (oracle : PageOracle) (date : Date) :
    List String → List String × Except ScrapeError (List HoroscopeRecord)
  | [] => ([], Except.ok [])
  | zodiac_sign :: rest =>
    let u := HoroscopePage.url zodiac_sign (format_date date)
    match oracle u with
    | Except.error e => ([u], Except.error (ScrapeError.network e))
    | Except.ok doc =>
      match get_horoscope doc with
      | Except.error e => ([u], Except.error (ScrapeError.markup e))
      | Except.ok horoscope =>
        ((u :: (reqSign oracle date rest).1),
          (reqSign oracle date rest).2.map (fun l => (zodiac_sign, date, horoscope) :: l))

/-- Outer loop of `Requester.make_requests` (`src/scrapper.py:56-64`):
iterate over the dates in ascending order, the sign loop running for each
date; an error at any point aborts the whole run. -/
def reqDates (oracle : PageOracle) (signs : List String) :
    List Date → List String × Except ScrapeError (List HoroscopeRecord)
  | [] => ([], Except.ok [])
  | date :: rest =>
    match reqSign oracle date signs with
    | (urls, Except.error e) => (urls, Except.error e)
    | (urls, Except.ok recs) =>
      (urls ++ (reqDates oracle signs rest).1,
        (reqDates oracle signs rest).2.map (fun l => recs ++ l))

/-- `Requester.make_requests` (`src/scrapper.py:51-65`): the nested loop
over `pd.date_range(date_start, date_end)` (outer) and the sign list
(inner).  Returns the requested URLs in order and either the full record
list or the first error. -/
def make_requests (oracle : PageOracle) (date_start date_end : Date)
    (zodiac_signs : List String) :
    List String × Except ScrapeError (List HoroscopeRecord) :=
  reqDates oracle zodiac_signs (date_range date_start date_end)

/-! ## Tables and CSV (`pandas` as used by the pipeline) -/

/-- A `pandas` dataframe as used here: ordered column names and ordered
rows of string cells. -/
structure DataFrame where
  columns : List String
  rows : List (List String)
deriving DecidableEq, Repr

/-- `result_to_dataframe` (`src/scrapper.py:67-68`):
`pd.DataFrame.from_records(results, columns=['SIGN', 'DATE', 'TEXT'])`;
the date cell is serialized as `str(date)`, i.e. ISO `YYYY-MM-DD`. -/
def result_to_dataframe (results : List HoroscopeRecord) : DataFrame :=
  { columns := ["SIGN", "DATE", "TEXT"]
  , rows := results.map (fun r => [r.1, date_iso r.2.1, r.2.2]) }

/-- Doubles every double-quote character of a string (the CSV escaping
rule applied inside a quoted field). -/
def escape_quotes (s : String) : String :=
  String.mk (s.data.flatMap (fun c => if c == '"' then ['"', '"'] else [c]))

/-- One CSV cell with the minimal quoting `pandas.to_csv` applies: a field
containing a comma, a quote or a line break is wrapped in double quotes
with inner quotes doubled. -/
def csv_field (s : String) : String :=
  if s.data.any (fun c => c == ',' || c == '"' || c == '\n' || c == '\r') then
    "\"" ++ escape_quotes s ++ "\""
  else s

/-- `DataFrame.to_csv(..., index=False)`: the comma-separated header line
followed by one comma-separated line per row, no index column
(`src/scrapper.py:78`, `src/merge_files.py:8`). -/
def to_csv (df : DataFrame) : String :=
  String.intercalate "," (df.columns.map csv_field) ++ "\n"
    ++ String.join (df.rows.map (fun r => String.intercalate "," (r.map csv_field) ++ "\n"))

/-- `pd.concat(dfs)` for same-schema frames (`src/merge_files.py:7`): the
columns of the first frame and the concatenation of all rows in order. -/
def pd_concat (dfs : List DataFrame) : DataFrame :=
  { columns := (dfs.map DataFrame.columns).headD []
  , rows := (dfs.map DataFrame.rows).flatten }

/-- The hardcoded year list of the merge script, `range(2010, 2018)`
(`src/merge_files.py:4`). -/
def merge_years : List Nat :=
  List.range' 2010 8

/-- `df_all_years` (`src/merge_files.py:3-7`): read each yearly CSV in
ascending year order and concatenate.  The filesystem is abstracted by
`read_csv`, which maps a year to the dataframe parsed from
`data/horoscope_<year>.csv`. -/
def df_all_years (read_csv : Nat → DataFrame) : DataFrame :=
  pd_concat (merge_years.map read_csv)

/-! ## The yearly driver (`request_everything`, `src/scrapper.py:70-78`) -/

/-- The start date `'{}-01-01'.format(year)` (`src/scrapper.py:73`), as
parsed by `pd.date_range`. -/
def start_date (year : Nat) : Date :=
  ⟨year, 1, 1⟩

/-- The end date `'{}-12-31'.format(year) if year != 2017 else '2012-12-20'`
(`src/scrapper.py:74`), as parsed by `pd.date_range`.  Note the hardcoded
override for 2017 is the string `'2012-12-20'` — year 2012, not 2017. -/
def end_date (year : Nat) : Date :=
  if year ≠ 2017 then ⟨year, 12, 31⟩ else ⟨2012, 12, 20⟩

/-- The body of the year loop of `request_everything`
(`src/scrapper.py:73-78`): build the `Requester` with the default sign
list, run `make_requests`, and turn the result into the CSV text written
to `data/horoscope_<year>.csv`.  Returns the requested URLs and either
the CSV content of the yearly file or the error that aborted the year. -/
def processYear (oracle : PageOracle) (year : Nat) :
    List String × Except ScrapeError String :=
  let r := make_requests oracle (start_date year) (end_date year) (requester_signs none)
  (r.1, r.2.map (fun recs => to_csv (result_to_dataframe recs)))

/-- The year loop of `request_everything` (`src/scrapper.py:71-78`) over
an explicit year list: each completed year appends its
`(year, csv content)` file; the first error stops the whole process (the
Python exception propagates out of the loop), so neither the failing year
nor any later year produces a file. -/
def processYears (oracle : PageOracle) : List Nat → List (Nat × String) × Option ScrapeError
  | [] => ([], none)
  | year :: rest =>
    match (processYear oracle year).2 with
    | Except.error e => ([], some e)
    | Except.ok csv =>
      ((year, csv) :: (processYears oracle rest).1, (processYears oracle rest).2)

/-- `request_everything(start_year, end_year, delay)`
(`src/scrapper.py:70-78`): process each year of
`range(start_year, end_year + 1)` in order; returns the yearly files
written (path year and CSV content) and the error that stopped the run,
if any. -/
def request_everything (oracle : PageOracle) (start_year end_year : Nat) :
    List (Nat × String) × Option ScrapeError :=
  processYears oracle (List.range' start_year (end_year + 1 - start_year))

/-- The `__main__` entry point `request_everything(2010, 2017, 0)`
(`src/scrapper.py:81`). -/
def main_run (oracle : PageOracle) : List (Nat × String) × Option ScrapeError :=
  request_everything oracle 2010 2017

/-! ## Helper definitions used by the verification statements -/

/-- The text that the fetch-then-extract pair yields for a given sign and
date: the page at the built URL is fetched through the oracle and the
horoscope is extracted from it.  The empty-string fallbacks are junk
values for the failure cases; the theorems only use this function under a
hypothesis that the whole run succeeded, which rules the fallbacks out. -/
def extracted (oracle : PageOracle) (zodiac_sign : String) (date : Date) : String :=
  match oracle (HoroscopePage.url zodiac_sign (format_date date)) with
  | Except.error _ => ""
  | Except.ok doc =>
    match get_horoscope doc with
    | Except.error _ => ""
    | Except.ok t => t

/-- A fixture page: the marker element immediately followed by a text
node, the well-formed shape the scraper expects. -/
def docGood : NodeList :=
  NodeList.ofList [Node.elem "time" ["todays-horoscope"] NodeList.nil, Node.text "Good day"]

/-- A fixture page whose horoscope text carries surrounding whitespace. -/
def docPadded : NodeList :=
  NodeList.ofList [Node.elem "time" ["todays-horoscope"] NodeList.nil, Node.text "  Good day  "]

/-- A fixture page with no marker element at all. -/
def docNoMarker : NodeList :=
  NodeList.ofList [Node.text "nothing here"]

/-- A network oracle that serves the well-formed fixture page at every URL. -/
def oracleGood : PageOracle :=
  fun _ => Except.ok docGood

/-- The records a one-sign full-2010 run against `oracleGood` produces. -/
def recs2010leo : List HoroscopeRecord :=
  (date_range ⟨2010, 1, 1⟩ ⟨2010, 12, 31⟩).map (fun d => ("leo", d, "Good day"))

/-- A 12-row yearly table fixture (2010). -/
def dfA : DataFrame :=
  { columns := ["SIGN", "DATE", "TEXT"]
  , rows := List.replicate 12 ["aries", "2010-01-01", "row a"] }

/-- A 12-row yearly table fixture (2011). -/
def dfB : DataFrame :=
  { columns := ["SIGN", "DATE", "TEXT"]
  , rows := List.replicate 12 ["aries", "2011-01-01", "row b"] }

/-! ## Calendar lemmas -/

/-- Chronological order implies order of the year components. -/
theorem Date.le_year {a b : Date} (h : Date.le a b = true) : a.year ≤ b.year := by
  simp only [Date.le, Bool.or_eq_true, Bool.and_eq_true, decide_eq_true_eq] at h
  rcases h with h | ⟨h, _⟩ <;> omega

/-- Stepping to the next day never decreases the year. -/
theorem Date.next_year_ge (d : Date) : d.year ≤ (Date.next d).year := by
  unfold Date.next
  split
  · exact Nat.le_refl _
  · split
    · exact Nat.le_refl _
    · exact Nat.le_succ _

/-- Every date produced by the fueled enumeration lies between the start
date (in year) and the stop date (chronologically). -/
theorem mem_date_range_aux :
    ∀ (fuel : Nat) (cur stop d : Date), d ∈ date_range_aux fuel cur stop →
      cur.year ≤ d.year ∧ Date.le d stop = true
  | 0, cur, stop, d, h => absurd h (by simp [date_range_aux])
  | fuel + 1, cur, stop, d, h => by
    simp only [date_range_aux] at h
    split at h
    · rename_i hcur
      rcases List.mem_cons.mp h with rfl | hm
      · exact ⟨Nat.le_refl _, hcur⟩
      · have ih := mem_date_range_aux fuel (Date.next cur) stop d hm
        exact ⟨Nat.le_trans (Date.next_year_ge cur) ih.1, ih.2⟩
    · exact absurd h (List.not_mem_nil d)

/-- Every date of `date_range s e` has a year at least `s.year` and is
chronologically at most `e`. -/
theorem mem_date_range {s e d : Date} (h : d ∈ date_range s e) :
    s.year ≤ d.year ∧ Date.le d e = true :=
  mem_date_range_aux _ s e d h

/-! ## Idempotence of `str.strip()` -/

/-- Dropping a prefix of matching elements twice is the same as once. -/
theorem dropWhile_self {α : Type} (p : α → Bool) :
    ∀ l : List α, (l.dropWhile p).dropWhile p = l.dropWhile p
  | [] => rfl
  | a :: l => by
    by_cases h : p a = true
    · simp only [List.dropWhile_cons, if_pos h]
      exact dropWhile_self p l
    · simp only [List.dropWhile_cons, if_neg h, eq_false_of_ne_true h]
      simp [List.dropWhile_cons, eq_false_of_ne_true h]

/-- A trailing element that fails the predicate survives `dropWhile`
unchanged at the end of the list. -/
theorem dropWhile_append_last {α : Type} (p : α → Bool) (a : α) (ha : p a = false) :
    ∀ l : List α, (l ++ [a]).dropWhile p = l.dropWhile p ++ [a]
  | [] => by simp [List.dropWhile_cons, ha]
  | b :: l => by
    by_cases h : p b = true
    · simp only [List.cons_append, List.dropWhile_cons, if_pos h]
      exact dropWhile_append_last p a ha l
    · simp [List.cons_append, List.dropWhile_cons, eq_false_of_ne_true h]

/-- The head surviving `dropWhile` fails the predicate. -/
theorem dropWhile_head_false {α : Type} (p : α → Bool) :
    ∀ (l : List α) (a : α) (t : List α), l.dropWhile p = a :: t → p a = false
  | [], a, t, h => by simp at h
  | b :: l, a, t, h => by
    by_cases hb : p b = true
    · rw [List.dropWhile_cons, if_pos hb] at h
      exact dropWhile_head_false p l a t h
    · rw [List.dropWhile_cons, if_neg hb] at h
      cases h
      exact eq_false_of_ne_true hb

/-- Python's `strip` is idempotent (character-list form). -/
theorem pyStripList_idem (l : List Char) : pyStripList (pyStripList l) = pyStripList l := by
  rcases h : List.dropWhile isPythonSpace l with - | ⟨a, t⟩
  · simp [pyStripList, h]
  · have ha : isPythonSpace a = false := dropWhile_head_false _ l a t h
    have hl : pyStripList l = a :: (t.reverse.dropWhile isPythonSpace).reverse := by
      simp [pyStripList, h, List.reverse_cons, dropWhile_append_last _ _ ha]
    rw [hl]
    simp [pyStripList, List.dropWhile_cons, ha, List.reverse_cons, List.reverse_reverse,
      dropWhile_append_last _ _ ha, dropWhile_self]

/-- Python's `strip` is idempotent. -/
theorem pyStrip_idem (s : String) : pyStrip (pyStrip s) = pyStrip s :=
  congrArg String.mk (pyStripList_idem s.data)

/-! ## Marker search lemmas -/

/-- When the document has no marker element anywhere, the `bs4` search
comes back empty. -/
theorem findNextSibling_eq_none (l : NodeList) (h : containsMarker l = false) :
    findNextSibling l = none := by
  induction l using containsMarker.induct with
  | case1 => rfl
  | case2 s rest ih =>
    simp only [containsMarker] at h
    simp only [findNextSibling]
    exact ih h
  | case3 =>
    rename_i tag classes children rest hc
    simp only [containsMarker, if_pos hc] at h
    exact absurd h (by simp)
  | case4 =>
    rename_i tag classes children rest hc ih1 ih2
    simp only [containsMarker, if_neg hc, Bool.or_eq_false_iff] at h
    simp only [findNextSibling, if_neg hc]
    rw [ih1 h.1]
    exact ih2 h.2

/-! ## Requester loop lemmas -/

/-- A successful inner (sign) loop returns exactly one record per sign, in
sign-list order, each carrying the loop's date and the text extracted from
the page fetched at the sign's URL; and for every sign the fetch and the
extraction both succeeded. -/
theorem reqSign_ok (oracle : PageOracle) (date : Date) :
    ∀ (signs : List String) (recs : List HoroscopeRecord),
      (reqSign oracle date signs).2 = Except.ok recs →
      recs = signs.map (fun sg => (sg, date, extracted oracle sg date))
      ∧ ∀ sg ∈ signs, ∃ doc,
          oracle (HoroscopePage.url sg (format_date date)) = Except.ok doc
          ∧ get_horoscope doc = Except.ok (extracted oracle sg date)
  | [], recs, h => by
    simp only [reqSign] at h
    cases h
    exact ⟨rfl, by simp⟩
  | sg :: rest, recs, h => by
    rcases ho : oracle (HoroscopePage.url sg (format_date date)) with e | doc
    · simp only [reqSign, ho] at h
      exact Except.noConfusion h
    · rcases hg : get_horoscope doc with e | t
      · simp only [reqSign, ho, hg] at h
        exact Except.noConfusion h
      · simp only [reqSign, ho, hg] at h
        rcases hr : (reqSign oracle date rest).2 with e | recs'
        · rw [hr] at h
          simp [Except.map] at h
        · rw [hr] at h
          simp only [Except.map, Except.ok.injEq] at h
          subst h
          obtain ⟨ih1, ih2⟩ := reqSign_ok oracle date rest recs' hr
          have hext : extracted oracle sg date = t := by
            simp [extracted, ho, hg]
          constructor
          · simp only [List.map_cons, ← ih1, hext]
          · intro sg' hsg'
            rcases List.mem_cons.mp hsg' with rfl | hmem
            · exact ⟨doc, ho, by rw [hext]; exact hg⟩
            · exact ih2 sg' hmem

/-- A successful outer (date) loop returns the per-date record blocks
concatenated in date order, and every (date, sign) pair of the run both
fetched and extracted successfully. -/
theorem reqDates_ok (oracle : PageOracle) (signs : List String) :
    ∀ (dates : List Date) (recs : List HoroscopeRecord),
      (reqDates oracle signs dates).2 = Except.ok recs →
      recs = dates.flatMap (fun d => signs.map (fun sg => (sg, d, extracted oracle sg d)))
      ∧ ∀ d ∈ dates, ∀ sg ∈ signs, ∃ doc,
          oracle (HoroscopePage.url sg (format_date d)) = Except.ok doc
          ∧ get_horoscope doc = Except.ok (extracted oracle sg d)
  | [], recs, h => by
    simp only [reqDates] at h
    cases h
    exact ⟨rfl, by simp⟩
  | date :: rest, recs, h => by
    rcases hs : reqSign oracle date signs with ⟨urls₁, res₁⟩
    rcases res₁ with e | recs₁
    · simp only [reqDates, hs] at h
      exact Except.noConfusion h
    · simp only [reqDates, hs] at h
      rcases hr : (reqDates oracle signs rest).2 with e | recs₂
      · rw [hr] at h
        simp [Except.map] at h
      · rw [hr] at h
        simp only [Except.map, Except.ok.injEq] at h
        subst h
        have hs2 : (reqSign oracle date signs).2 = Except.ok recs₁ := by rw [hs]
        obtain ⟨h1, h2⟩ := reqSign_ok oracle date signs recs₁ hs2
        obtain ⟨ih1, ih2⟩ := reqDates_ok oracle signs rest recs₂ hr
        constructor
        · rw [List.flatMap_cons, ← ih1, ← h1]
        · intro d hd sg hsg
          rcases List.mem_cons.mp hd with rfl | hmem
          · exact h2 sg hsg
          · exact ih2 d hmem sg hsg

/-- Every URL the inner loop requests is the sign's URL for the loop's
date. -/
theorem reqSign_urls (oracle : PageOracle) (date : Date) :
    ∀ (signs : List String), ∀ u ∈ (reqSign oracle date signs).1,
      ∃ sg ∈ signs, u = HoroscopePage.url sg (format_date date)
  | [], u, hu => by simp [reqSign] at hu
  | sg :: rest, u, hu => by
    rcases ho : oracle (HoroscopePage.url sg (format_date date)) with e | doc
    · simp only [reqSign, ho] at hu
      rcases List.mem_singleton.mp hu with rfl
      exact ⟨sg, List.mem_cons_self sg rest, rfl⟩
    · rcases hg : get_horoscope doc with e | t
      · simp only [reqSign, ho, hg] at hu
        rcases List.mem_singleton.mp hu with rfl
        exact ⟨sg, List.mem_cons_self sg rest, rfl⟩
      · simp only [reqSign, ho, hg] at hu
        rcases List.mem_cons.mp hu with rfl | hmem
        · exact ⟨sg, List.mem_cons_self sg rest, rfl⟩
        · obtain ⟨sg', hsg', rfl⟩ := reqSign_urls oracle date rest u hmem
          exact ⟨sg', List.mem_cons_of_mem sg hsg', rfl⟩

/-- Every URL the outer loop requests is some sign's URL for some date of
the enumerated range. -/
theorem reqDates_urls (oracle : PageOracle) (signs : List String) :
    ∀ (dates : List Date), ∀ u ∈ (reqDates oracle signs dates).1,
      ∃ d ∈ dates, ∃ sg ∈ signs, u = HoroscopePage.url sg (format_date d)
  | [], u, hu => by simp [reqDates] at hu
  | date :: rest, u, hu => by
    rcases hs : reqSign oracle date signs with ⟨urls₁, res₁⟩
    have hs1 : (reqSign oracle date signs).1 = urls₁ := by rw [hs]
    rcases res₁ with e | recs₁
    · simp only [reqDates, hs] at hu
      obtain ⟨sg, hsg, rfl⟩ := reqSign_urls oracle date signs u (hs1 ▸ hu)
      exact ⟨date, List.mem_cons_self date rest, sg, hsg, rfl⟩
    · simp only [reqDates, hs] at hu
      rcases List.mem_append.mp hu with hmem | hmem
      · obtain ⟨sg, hsg, rfl⟩ := reqSign_urls oracle date signs u (hs1 ▸ hmem)
        exact ⟨date, List.mem_cons_self date rest, sg, hsg, rfl⟩
      · obtain ⟨d, hd, sg, hsg, rfl⟩ := reqDates_urls oracle signs rest u hmem
        exact ⟨d, List.mem_cons_of_mem date hd, sg, hsg, rfl⟩

/-! ## Indexing lemmas for the nested-loop product -/

/-- The nested loop `for a in l₁: for b in l₂: append (f a b)` produces
`l₁.length * l₂.length` items. -/
theorem flatMap_map_length {α β γ : Type} (f : α → β → γ) :
    ∀ (l₁ : List α) (l₂ : List β),
      (l₁.flatMap (fun a => l₂.map (f a))).length = l₁.length * l₂.length
  | [], l₂ => by simp
  | a :: t, l₂ => by
    simp only [List.flatMap_cons, List.length_append, List.length_map,
      flatMap_map_length f t l₂, List.length_cons]
    ring

/-- In the nested-loop product, the item at position `i * l₂.length + j`
is `f l₁[i] l₂[j]`: the outer index varies slowest, the inner fastest. -/
theorem flatMap_map_getElem {α β γ : Type} (f : α → β → γ) :
    ∀ (l₁ : List α) (l₂ : List β) (i j : Nat) (hi : i < l₁.length) (hj : j < l₂.length),
      (l₁.flatMap (fun a => l₂.map (f a)))[i * l₂.length + j]? = some (f l₁[i] l₂[j])
  | [], l₂, i, j, hi, hj => absurd hi (by simp)
  | a :: t, l₂, 0, j, hi, hj => by
    simp only [List.flatMap_cons, Nat.zero_mul, Nat.zero_add]
    rw [List.getElem?_append_left (by simpa using hj), List.getElem?_map,
      List.getElem?_eq_getElem hj]
    rfl
  | a :: t, l₂, i + 1, j, hi, hj => by
    simp only [List.flatMap_cons]
    rw [List.getElem?_append_right (by simp [Nat.succ_mul]; omega)]
    have harith : (i + 1) * l₂.length + j - (l₂.map (f a)).length = i * l₂.length + j := by
      simp only [List.length_map, Nat.succ_mul]
      omega
    rw [harith, flatMap_map_getElem f t l₂ i j (by simpa using hi) hj]
    rfl

/-! ## Year-loop lemmas -/

/-- Any yearly file present in the output of the year loop comes from a
fully successful `make_requests` run for that year, and its content is the
CSV of the complete record list. -/
theorem processYears_mem (oracle : PageOracle) :
    ∀ (years : List Nat) (year : Nat) (csv : String),
      (year, csv) ∈ (processYears oracle years).1 →
      ∃ recs,
        (make_requests oracle (start_date year) (end_date year) (requester_signs none)).2
          = Except.ok recs
        ∧ csv = to_csv (result_to_dataframe recs)
  | [], year, csv, h => by simp [processYears] at h
  | y :: rest, year, csv, h => by
    rcases hy : (processYear oracle y).2 with e | c
    · simp only [processYears, hy] at h
      exact absurd h (List.not_mem_nil _)
    · simp only [processYears, hy] at h
      rcases List.mem_cons.mp h with heq | hmem
      · have h1 : year = y := congrArg Prod.fst heq
        have h2 : csv = c := congrArg Prod.snd heq
        subst h1
        subst h2
        rcases hm : (make_requests oracle (start_date year) (end_date year)
            (requester_signs none)).2 with e | recs
        · simp only [processYear] at hy
          rw [hm] at hy
          simp [Except.map] at hy
        · simp only [processYear] at hy
          rw [hm] at hy
          simp only [Except.map, Except.ok.injEq] at hy
          exact ⟨recs, rfl, hy.symm⟩
      · exact processYears_mem oracle rest year csv hmem

/-! ## The claims -/

/-- C1: the claim states that the enumerated range of the terminal year
2017 ends early at 2017-12-20.  The code instead hardcodes the end-date
string `'2012-12-20'` (`src/scrapper.py:74`) — year 2012, not 2017 — which
precedes the start date 2017-01-01, so the enumerated range for 2017 is
empty.  This theorem evaluates the code at the failing input: the 2017 end
date is 2012-12-20, it is not 2017-12-20, the 2017 range is empty, every
other processed year (2010–2016) ends at its December 31, and 2017 is
among the years processed by `request_everything(2010, 2017, 0)`. -/
theorem C1_end_date_divergence :
    start_date 2017 = ⟨2017, 1, 1⟩
    ∧ end_date 2017 = ⟨2012, 12, 20⟩
    ∧ end_date 2017 ≠ ⟨2017, 12, 20⟩
    ∧ date_range (start_date 2017) (end_date 2017) = []
    ∧ (List.range' 2010 7).map end_date =
        [⟨2010, 12, 31⟩, ⟨2011, 12, 31⟩, ⟨2012, 12, 31⟩, ⟨2013, 12, 31⟩,
         ⟨2014, 12, 31⟩, ⟨2015, 12, 31⟩, ⟨2016, 12, 31⟩]
    ∧ (List.range' 2010 7).map start_date =
        [⟨2010, 1, 1⟩, ⟨2011, 1, 1⟩, ⟨2012, 1, 1⟩, ⟨2013, 1, 1⟩,
         ⟨2014, 1, 1⟩, ⟨2015, 1, 1⟩, ⟨2016, 1, 1⟩]
    ∧ 2017 ∈ List.range' 2010 (2017 + 1 - 2010) := by
  decide

/-- C2: for every zodiac sign string and every date string, the fetch
operation builds exactly the URL
`http://www.beliefnet.com/inspiration/astrology/{sign}.aspx?d={date}` with
both substituted verbatim; sign `leo` with date `20150304` yields the path
segment `leo.aspx?d=20150304`; and every URL actually requested by
`make_requests` is such a URL for a sign of the list and a date of the
range, with the date in its 8-digit `YYYYMMDD` form. -/
theorem C2_url_construction :
    (∀ zodiac_sign date : String,
      HoroscopePage.url zodiac_sign date =
        "http://www.beliefnet.com/inspiration/astrology/" ++ zodiac_sign ++ ".aspx?d=" ++ date)
    ∧ HoroscopePage.url "leo" "20150304" =
        "http://www.beliefnet.com/inspiration/astrology/leo.aspx?d=20150304"
    ∧ ∀ (oracle : PageOracle) (date_start date_end : Date) (signs : List String),
        ∀ u ∈ (make_requests oracle date_start date_end signs).1,
          ∃ d ∈ date_range date_start date_end, ∃ sg ∈ signs,
            u = HoroscopePage.url sg (format_date d) := by
  refine ⟨fun _ _ => rfl, rfl, ?_⟩
  intro oracle ds de signs u hu
  exact reqDates_urls oracle signs (date_range ds de) u hu

/-- Witness for C2: the one-day, one-sign run actually requests the
expected URL. -/
theorem C2_url_construction_witness :
    HoroscopePage.url "leo" "20150304"
        ∈ (make_requests oracleGood ⟨2015, 3, 4⟩ ⟨2015, 3, 4⟩ ["leo"]).1
    ∧ ∃ d ∈ date_range (⟨2015, 3, 4⟩ : Date) ⟨2015, 3, 4⟩, ∃ sg ∈ ["leo"],
        HoroscopePage.url "leo" "20150304" = HoroscopePage.url sg (format_date d) :=
  ⟨by decide, C2_url_construction.2.2 oracleGood ⟨2015, 3, 4⟩ ⟨2015, 3, 4⟩ ["leo"]
    (HoroscopePage.url "leo" "20150304") (by decide)⟩

/-- C3: every record of a successful yearly run for year `Y` (dates
enumerated from the year's start date to the year's end date) carries a
date whose year component is `Y`; for 2017 this holds vacuously, the
enumerated range being empty. -/
theorem C3_year_invariant (oracle : PageOracle) (Y : Nat) (signs : List String)
    (recs : List HoroscopeRecord)
    (h : (make_requests oracle (start_date Y) (end_date Y) signs).2 = Except.ok recs) :
    ∀ r ∈ recs, r.2.1.year = Y := by
  intro r hr
  obtain ⟨hrecs, -⟩ := reqDates_ok oracle signs (date_range (start_date Y) (end_date Y)) recs h
  subst hrecs
  rw [List.mem_flatMap] at hr
  obtain ⟨d, hd, hr⟩ := hr
  rw [List.mem_map] at hr
  obtain ⟨sg, hsg, rfl⟩ := hr
  have hmem := mem_date_range hd
  have h1 : Y ≤ d.year := hmem.1
  have h2 := Date.le_year hmem.2
  show d.year = Y
  by_cases hY : Y = 2017
  · subst hY
    have h3 : d.year ≤ 2012 := by simpa [end_date] using h2
    omega
  · have h3 : d.year ≤ Y := by simpa [end_date, hY] using h2
    omega

set_option maxRecDepth 400000 in
/-- Witness for C3: a full one-sign 2010 run succeeds and its first record
is dated in 2010. -/
theorem C3_year_invariant_witness :
    (make_requests oracleGood (start_date 2010) (end_date 2010) ["leo"]).2
        = Except.ok recs2010leo
    ∧ (("leo", (⟨2010, 1, 1⟩ : Date), "Good day") : HoroscopeRecord).2.1.year = 2010 :=
  ⟨by decide, C3_year_invariant oracleGood 2010 ["leo"] recs2010leo (by decide)
    ("leo", ⟨2010, 1, 1⟩, "Good day") (by decide)⟩

/-- C4: merging yearly tables concatenates: the combined table's rows are
the per-year row lists flattened in ascending year order (so all rows of
an earlier year precede all rows of any later year and per-year row order
is preserved), its row count is the sum of the yearly row counts, and the
column order is unchanged; in particular concatenating a 12-row table and
a 12-row table yields exactly 24 rows, the first table's rows first. -/
theorem C4_merge_concat :
    ∀ read_csv : Nat → DataFrame,
      (df_all_years read_csv).rows = (merge_years.map (fun y => (read_csv y).rows)).flatten
      ∧ (df_all_years read_csv).rows.length
          = (merge_years.map (fun y => (read_csv y).rows.length)).sum
      ∧ (df_all_years read_csv).columns = (read_csv 2010).columns
      ∧ ∀ a b : DataFrame, a.rows.length = 12 → b.rows.length = 12 →
          (pd_concat [a, b]).rows = a.rows ++ b.rows
          ∧ (pd_concat [a, b]).rows.length = 24
          ∧ (pd_concat [a, b]).columns = a.columns := by
  intro read_csv
  refine ⟨?_, ?_, rfl, ?_⟩
  · simp only [df_all_years, pd_concat, List.map_map]
    rfl
  · simp only [df_all_years, pd_concat, List.length_flatten, List.map_map]
    rfl
  · intro a b ha hb
    refine ⟨by simp [pd_concat], ?_, rfl⟩
    simp [pd_concat, ha, hb]

/-- Witness for C4: two concrete 12-row tables merge into 24 rows. -/
theorem C4_merge_concat_witness :
    dfA.rows.length = 12 ∧ dfB.rows.length = 12
    ∧ (pd_concat [dfA, dfB]).rows.length = 24 :=
  ⟨by decide, by decide,
    ((C4_merge_concat (fun _ => dfA)).2.2.2 dfA dfB (by decide) (by decide)).2.1⟩

/-- C5: on any parsed page with no `time.todays-horoscope` element, or
whose first such element has no following sibling node, the extraction
fails with a `MarkupStructureError` and never returns a string (in
particular it cannot silently return an empty string). -/
theorem C5_extract_error (doc : NodeList)
    (h : containsMarker doc = false ∨ findNextSibling doc = some none) :
    (get_horoscope doc = Except.error MarkupStructureError.noMarkerElement
      ∨ get_horoscope doc = Except.error MarkupStructureError.noNextSibling)
    ∧ ∀ s, get_horoscope doc ≠ Except.ok s := by
  have hf : findNextSibling doc = none ∨ findNextSibling doc = some none := by
    rcases h with h | h
    · exact Or.inl (findNextSibling_eq_none doc h)
    · exact Or.inr h
  rcases hf with hf | hf
  · constructor
    · exact Or.inl (by simp [get_horoscope, hf])
    · intro s hs
      simp [get_horoscope, hf] at hs
  · constructor
    · exact Or.inr (by simp [get_horoscope, hf])
    · intro s hs
      simp [get_horoscope, hf] at hs

/-- Witness for C5: a page with no marker element makes the extraction
fail, so it does not return the empty string. -/
theorem C5_extract_error_witness :
    (containsMarker docNoMarker = false ∨ findNextSibling docNoMarker = some none)
    ∧ get_horoscope docNoMarker ≠ Except.ok "" :=
  ⟨Or.inl (by decide), (C5_extract_error docNoMarker (Or.inl (by decide))).2 ""⟩

/-- C7: the extraction is a pure function of the parsed page — two
invocations on the same input are equal — and its successful output is a
trimmed string: stripping it again changes nothing, so repeated extraction
keeps returning the same trimmed text. -/
theorem C7_extract_idempotent (doc : NodeList) :
    get_horoscope doc = get_horoscope doc
    ∧ ∀ s, get_horoscope doc = Except.ok s → pyStrip s = s := by
  refine ⟨rfl, fun s h => ?_⟩
  rcases hf : findNextSibling doc with - | r
  · simp [get_horoscope, hf] at h
  · rcases r with - | n
    · simp [get_horoscope, hf] at h
    · rcases n with s₀ | ⟨tag, cls, ch⟩
      · simp only [get_horoscope, hf, Except.ok.injEq] at h
        rw [← h]
        exact pyStrip_idem s₀
      · simp [get_horoscope, hf] at h

/-- Witness for C7: extraction on the padded fixture returns the trimmed
text, which strips to itself. -/
theorem C7_extract_idempotent_witness :
    get_horoscope docPadded = Except.ok "Good day"
    ∧ pyStrip "Good day" = "Good day" :=
  ⟨by decide, (C7_extract_idempotent docPadded).2 "Good day" (by decide)⟩

/-- C6: a yearly file appears in the output of a scraping run only if the
whole `make_requests` run of that year succeeded — every (date, sign) pair
of the year fetched and extracted successfully — and then its content is
the CSV of the complete record list; so a year either fully completes and
is saved, or no file is produced for it (the first failure aborts before
the yearly file is written). -/
theorem C6_all_or_nothing (oracle : PageOracle) (start_year end_year year : Nat) (csv : String)
    (h : (year, csv) ∈ (request_everything oracle start_year end_year).1) :
    ∃ recs,
      (make_requests oracle (start_date year) (end_date year) (requester_signs none)).2
        = Except.ok recs
      ∧ csv = to_csv (result_to_dataframe recs)
      ∧ ∀ d ∈ date_range (start_date year) (end_date year), ∀ sg ∈ requester_signs none,
          ∃ doc, oracle (HoroscopePage.url sg (format_date d)) = Except.ok doc
            ∧ get_horoscope doc = Except.ok (extracted oracle sg d) := by
  obtain ⟨recs, hm, hcsv⟩ := processYears_mem oracle _ year csv h
  exact ⟨recs, hm, hcsv, (reqDates_ok oracle _ _ recs hm).2⟩

/-- Witness for C6: the one-year 2017 run writes its (header-only) file,
and the theorem recovers the successful (empty) record list behind it. -/
theorem C6_all_or_nothing_witness :
    (2017, "SIGN,DATE,TEXT\n") ∈ (request_everything oracleGood 2017 2017).1
    ∧ ∃ recs,
        (make_requests oracleGood (start_date 2017) (end_date 2017) (requester_signs none)).2
          = Except.ok recs
        ∧ "SIGN,DATE,TEXT\n" = to_csv (result_to_dataframe recs)
        ∧ ∀ d ∈ date_range (start_date 2017) (end_date 2017), ∀ sg ∈ requester_signs none,
            ∃ doc, oracleGood (HoroscopePage.url sg (format_date d)) = Except.ok doc
              ∧ get_horoscope doc = Except.ok (extracted oracleGood sg d) :=
  ⟨by decide, C6_all_or_nothing oracleGood 2017 2017 2017 "SIGN,DATE,TEXT\n" (by decide)⟩

/-- C8: a successful run produces one record per (date, sign) pair of the
product, ordered with the outer loop over the enumerated dates and the
inner loop over the signs in list order (the sign varies fastest): the
record at position `i * |signs| + j` carries the `i`-th date and the
`j`-th sign; and for every pair the fetch succeeded and the extraction was
performed on the fetched page (the Fetcher feeds the Extractor). -/
theorem C8_record_order (oracle : PageOracle) (date_start date_end : Date)
    (signs : List String) (recs : List HoroscopeRecord)
    (h : (make_requests oracle date_start date_end signs).2 = Except.ok recs) :
    recs.length = (date_range date_start date_end).length * signs.length
    ∧ (∀ (i j : Nat) (hi : i < (date_range date_start date_end).length)
        (hj : j < signs.length),
        recs[i * signs.length + j]? =
          some (signs[j], (date_range date_start date_end)[i],
            extracted oracle signs[j] ((date_range date_start date_end)[i])))
    ∧ ∀ d ∈ date_range date_start date_end, ∀ sg ∈ signs,
        ∃ doc, oracle (HoroscopePage.url sg (format_date d)) = Except.ok doc
          ∧ get_horoscope doc = Except.ok (extracted oracle sg d) := by
  obtain ⟨hrecs, hok⟩ := reqDates_ok oracle signs (date_range date_start date_end) recs h
  subst hrecs
  refine ⟨flatMap_map_length _ _ _, ?_, hok⟩
  intro i j hi hj
  exact flatMap_map_getElem (fun d sg => (sg, d, extracted oracle sg d))
    (date_range date_start date_end) signs i j hi hj

/-- Witness for C8: the one-day, one-sign run succeeds with exactly one
record, whose count matches the product of the loop lengths. -/
theorem C8_record_order_witness :
    (make_requests oracleGood ⟨2015, 3, 4⟩ ⟨2015, 3, 4⟩ ["leo"]).2
        = Except.ok [("leo", ⟨2015, 3, 4⟩, "Good day")]
    ∧ ([("leo", (⟨2015, 3, 4⟩ : Date), "Good day")] : List HoroscopeRecord).length
        = (date_range ⟨2015, 3, 4⟩ ⟨2015, 3, 4⟩).length * ["leo"].length :=
  ⟨by decide,
    (C8_record_order oracleGood ⟨2015, 3, 4⟩ ⟨2015, 3, 4⟩ ["leo"]
      [("leo", ⟨2015, 3, 4⟩, "Good day")] (by decide)).1⟩

/-- C9: constructing a `Requester` with `None` or an empty sign list
silently substitutes the fixed default list of all 12 signs in the order
aries, taurus, gemini, cancer, leo, virgo, libra, scorpio, sagittarius,
capricorn, aquarius, pisces; consequently no argument can produce a run
over zero signs. -/
theorem C9_default_signs :
    requester_signs none = zodiac_signs_default
    ∧ requester_signs (some []) = zodiac_signs_default
    ∧ zodiac_signs_default =
        ["aries", "taurus", "gemini", "cancer", "leo", "virgo",
         "libra", "scorpio", "sagittarius", "capricorn", "aquarius", "pisces"]
    ∧ ∀ zs : Option (List String), requester_signs zs ≠ [] := by
  refine ⟨rfl, rfl, rfl, ?_⟩
  intro zs
  rcases zs with - | l
  · decide
  · rcases l with - | ⟨a, t⟩
    · decide
    · simp [requester_signs]

/-- C10: for year 2017 the hardcoded end date 2012-12-20 precedes the
start date 2017-01-01, so the enumerated range is empty, no URL is
requested at all, and the yearly file is written containing only the
header row `SIGN,DATE,TEXT` and zero data rows — whatever the network
returns. -/
theorem C10_year2017_empty (oracle : PageOracle) :
    processYear oracle 2017 = ([], Except.ok "SIGN,DATE,TEXT\n")
    ∧ date_range (start_date 2017) (end_date 2017) = []
    ∧ (make_requests oracle (start_date 2017) (end_date 2017) (requester_signs none)).1 = [] :=
  ⟨rfl, rfl, rfl⟩

/-- Witness for C9: a concrete non-empty argument also yields a non-empty
sign list. -/
theorem C9_default_signs_witness :
    requester_signs (some ["leo"]) ≠ [] :=
  C9_default_signs.2.2.2 (some ["leo"])

/-- Witness for C10: under the fixture oracle, the 2017 year body makes no
request and produces the header-only file. -/
theorem C10_year2017_empty_witness :
    processYear oracleGood 2017 = ([], Except.ok "SIGN,DATE,TEXT\n") :=
  (C10_year2017_empty oracleGood).1
